import Mathlib

/-!
Verification of the Evolve creature-generation core (`Evolve/creature.py`).

The turtle pen is modelled as explicit state (`PenState`) threaded through
every operation.  Coordinates and headings live in an arbitrary linear
ordered commutative ring `K` (the real turtle uses real-number coordinates;
every algorithm of the source uses only addition, natural-number scalar
multiples and order comparisons, so the whole development is parametric in
`K`).  Turtle trigonometry is kept abstract: a `Geo` record supplies the
displacement vector per unit of forward motion at a given heading, so every
theorem below is parametric in the trigonometric interpretation of headings
(the real turtle instantiates `dir θ = (cos θ°, sin θ°)`).  Drawing side
effects are reified as a trace of `DrawCmd` values: a pen-down forward
stroke, a dot mark, a circle trace, and fill-region delimiters.
-/

namespace Evolve

variable {K : Type} [LinearOrderedCommRing K]

/-- Abstract turtle trigonometry: `dir θ` is the displacement per unit of
forward motion at heading `θ` (degrees).  The real turtle uses
`(cos θ°, sin θ°)`; the development never depends on particular values. -/
structure Geo (K : Type) where
  dir : K → K × K

/-- The turtle pen's state: position, heading (degrees), pen-down flag, and
the current stroke color, fill color and stroke width. -/
structure PenState (K : Type) where
  x : K
  y : K
  heading : K
  penDown : Bool
  penColor : String
  penFillColor : String
  penWidth : ℕ
deriving DecidableEq

/-- A drawing command issued to the cursor (pen-down stroke, dot, circle
trace, or fill region delimiter). -/
inductive DrawCmd (K : Type) where
  | stroke (x1 y1 x2 y2 : K)
  | dotMark (x y : K) (diameter : ℕ) (color : String)
  | circleTrace (x y : K) (radius : ℕ)
  | fillBegin
  | fillEnd
deriving DecidableEq

/-- `pen.penup()` -/
def penup (s : PenState K) : PenState K := { s with penDown := false }

/-- `pen.pendown()` -/
def pendown (s : PenState K) : PenState K := { s with penDown := true }

/-- `pen.forward(d)`: advance along the current heading; emits a stroke when
the pen is down. -/
def forward (geo : Geo K) (d : K) (s : PenState K) : PenState K × List (DrawCmd K) :=
  let s' := { s with
    x := s.x + d * (geo.dir s.heading).1
    y := s.y + d * (geo.dir s.heading).2 }
  (s', if s.penDown then [DrawCmd.stroke s.x s.y s'.x s'.y] else [])

/-- `pen.right(a)` -/
def turnRight (a : K) (s : PenState K) : PenState K := { s with heading := s.heading - a }

/-- `pen.left(a)` -/
def turnLeft (a : K) (s : PenState K) : PenState K := { s with heading := s.heading + a }

/-- `pen.pencolor(c)` -/
def setPenColor (c : String) (s : PenState K) : PenState K := { s with penColor := c }

/-- `pen.fillcolor(c)` -/
def setFillColor (c : String) (s : PenState K) : PenState K := { s with penFillColor := c }

/-- `pen.width(w)` -/
def setWidth (w : ℕ) (s : PenState K) : PenState K := { s with penWidth := w }

/-- `pen.dot(diameter, color)`: draws a dot at the current position (the
turtle draws a dot regardless of the pen-down flag). -/
def penDot (diameter : ℕ) (color : String) (s : PenState K) :
    PenState K × List (DrawCmd K) :=
  (s, [DrawCmd.dotMark s.x s.y diameter color])

/-- `pen.circle(radius)`: a full 360-degree circle returns the pen to its
starting position and heading; it traces when the pen is down. -/
def penCircle (radius : ℕ) (s : PenState K) : PenState K × List (DrawCmd K) :=
  (s, if s.penDown then [DrawCmd.circleTrace s.x s.y radius] else [])

/-- `pen.begin_fill()` -/
def beginFill (s : PenState K) : PenState K × List (DrawCmd K) := (s, [DrawCmd.fillBegin])

/-- `pen.end_fill()` -/
def endFill (s : PenState K) : PenState K × List (DrawCmd K) := (s, [DrawCmd.fillEnd])

/-- `PenPosition`: a saved pen position, heading, and chirality flag.  The
pen reference held by the Python object is the globally threaded `PenState`. -/
structure PenPosition (K : Type) where
  chiralityRight : Bool
  xPosition : K
  yPosition : K
  heading : K
deriving DecidableEq

/-- `PenPosition.__init__` / `savePosition`: capture the pen's current
position and heading together with a chirality flag. -/
def PenPosition.save (chiralityRight : Bool) (s : PenState K) : PenPosition K :=
  { chiralityRight := chiralityRight, xPosition := s.x, yPosition := s.y, heading := s.heading }

/-- `PenPosition.restore`: `penup(); setposition(x, y); setheading(h)`.
The pen is raised before moving, so no stroke is emitted. -/
def PenPosition.restore (p : PenPosition K) (s : PenState K) : PenState K :=
  { s with penDown := false, x := p.xPosition, y := p.yPosition, heading := p.heading }

/-- `PenPosition.flipChirality` -/
def PenPosition.flipChirality (p : PenPosition K) : PenPosition K :=
  { p with chiralityRight := !p.chiralityRight }

/-- `Chromosome._SEGMENT_COLORS` -/
def segmentColors : List String :=
  ["brown", "red", "orange", "yellow", "green", "blue", "purple", "white"]

/-- `Chromosome._MAX_COLORS` -/
def MAX_COLORS : ℕ := 8

/-- A chromosome: the raw 32-bit integer together with the decoded trait
fields produced by `_interpretChromosomeValue`. -/
structure Chromosome where
  index : ℕ
  chromosomeValue : ℕ
  branchAngle : ℕ
  length : ℕ
  symmetryBits : ℕ
  branchCount : ℕ
  terminated : Bool
  lineWidth : ℕ
  lineColor : String
  fillColor : String
  shape : ℕ
deriving DecidableEq

/-- `Chromosome.__init__` with an explicit value, followed by
`_interpretChromosomeValue`.  Bit masks and shifts are those of the
`_..._GENE_BITS` / `_..._SHIFT_NUMBER` class constants.  Note the line-width
decode mirrors the Python expression
`1 + (value & 0x00300000) >> 20`, in which the addition binds tighter than
the shift. -/
def Chromosome.fromValue (index chromosomeValue : ℕ) : Chromosome where
  index := index
  chromosomeValue := chromosomeValue
  branchAngle := (chromosomeValue &&& 0x0000003F) >>> 0
  length := (chromosomeValue &&& 0x000007C0) >>> 6
  symmetryBits := (chromosomeValue &&& 0x00003000) >>> 12
  branchCount := (chromosomeValue &&& 0x00030000) >>> 16
  terminated := (chromosomeValue &&& 0x00030000) == 0
  lineWidth := (1 + (chromosomeValue &&& 0x00300000)) >>> 20
  lineColor := segmentColors.getD (((chromosomeValue &&& 0x07000000) >>> 24) % MAX_COLORS) "brown"
  fillColor := segmentColors.getD (((chromosomeValue &&& 0x70000000) >>> 28) % MAX_COLORS) "brown"
  shape := (chromosomeValue &&& 0x000C0000) >>> 18

/-- `Chromosome.__init__` with `chromosomeValue = None`: a random 32-bit
value (the `rand` argument stands for `random.randint(0, 0xFFFFFFFF)`) is
or-ed with `_SEGMENT_TERMINATION_PREVENT = 0x00010000` before decoding. -/
def Chromosome.randomCreate (index rand : ℕ) : Chromosome :=
  Chromosome.fromValue index (rand ||| 0x00010000)

/-- Placeholder chromosome used as the (never reached) list-indexing default. -/
def defaultChromosome : Chromosome := Chromosome.fromValue 0 0

/-- `chromosomes[i]` (Python list indexing; indices are in range whenever the
genotype invariant of exactly `CHROMOSOME_COUNT` chromosomes holds). -/
def chromAt (chromosomes : List Chromosome) (i : ℕ) : Chromosome :=
  chromosomes.getD i defaultChromosome

/-- The straight-symmetry loop of `childSegmentPositions`: `branchCount`
times, record the current pen position and then move forward by `length`. -/
def straightBranches (geo : Geo K) (len : ℕ) (chiralityRight : Bool) :
    ℕ → PenState K → List (PenPosition K) × PenState K × List (DrawCmd K)
  | 0, s => ([], s, [])
  | n + 1, s =>
    let p := PenPosition.save chiralityRight s
    let fwd := forward geo (len : K) s
    let rest := straightBranches geo len chiralityRight n fwd.1
    (p :: rest.1, rest.2.1, fwd.2 ++ rest.2.2)

/-- One angled pass of `childSegmentPositions`: `branchCount` times, turn by
`branchAngle` in the direction given by the chirality, then record the pen
position.  Turning emits no drawing command. -/
def turnBranches (branchAngle : ℕ) (chiralityRight : Bool) :
    ℕ → PenState K → List (PenPosition K) × PenState K
  | 0, s => ([], s)
  | n + 1, s =>
    let s1 := if chiralityRight then turnRight (branchAngle : K) s
              else turnLeft (branchAngle : K) s
    let p := PenPosition.save chiralityRight s1
    let rest := turnBranches branchAngle chiralityRight n s1
    (p :: rest.1, rest.2)

/-- `Chromosome.childSegmentPositions`: the list of starting pen positions
for the child segments budding off the end of the parent segment. -/
def Chromosome.childSegmentPositions (c : Chromosome) (geo : Geo K)
    (priorSegmentEndingPenPosition : PenPosition K) (s : PenState K) :
    List (PenPosition K) × PenState K × List (DrawCmd K) :=
  let startingChiralityRight := priorSegmentEndingPenPosition.chiralityRight
  let s0 := priorSegmentEndingPenPosition.restore s
  if !c.terminated then
    if c.symmetryBits = 0 then
      straightBranches geo c.length startingChiralityRight c.branchCount
        (priorSegmentEndingPenPosition.restore s0)
    else
      let sameR :=
        if c.symmetryBits &&& 0x1 ≠ 0 then
          turnBranches c.branchAngle startingChiralityRight c.branchCount
            (priorSegmentEndingPenPosition.restore s0)
        else ([], s0)
      let oppR :=
        if c.symmetryBits &&& 0x2 ≠ 0 then
          turnBranches c.branchAngle (!startingChiralityRight) c.branchCount
            (priorSegmentEndingPenPosition.restore sameR.2)
        else ([], sameR.2)
      (sameR.1 ++ oppR.1, oppR.2, [])
  else ([], s0, [])

/-- Modelled from the spec: the bounding region (`CreaturePanel`, defined in
the excluded orchestration layer) exposes four interior boundary coordinates
and the canonical starting pen position for creature growth. -/
structure CreaturePanel (K : Type) where
  interiorLeftX : K
  interiorBottomY : K
  interiorRightX : K
  interiorTopY : K
  startingPenPosition : PenPosition K
deriving DecidableEq

/-- `Chromosome.segmentOutOfBounds`: simulate the segment's extent and test
the resulting pen position against the panel boundaries (shrunk inward by
`radius` for dot/circle shapes).  Missing panel or position is treated as
out of bounds. -/
def Chromosome.segmentOutOfBounds (c : Chromosome) (geo : Geo K)
    (creaturePanel : Option (CreaturePanel K)) (penPosition : Option (PenPosition K))
    (s : PenState K) : Bool × PenState K × List (DrawCmd K) :=
  match creaturePanel, penPosition with
  | some panel, some pos =>
    let s0 := pos.restore s
    if c.shape = 0 then
      let fwd := forward geo (c.length : K) s0
      if fwd.1.x ≤ panel.interiorLeftX ∨ fwd.1.x ≥ panel.interiorRightX ∨
         fwd.1.y ≤ panel.interiorBottomY ∨ fwd.1.y ≥ panel.interiorTopY then
        (true, fwd.1, fwd.2)
      else
        (false, fwd.1, fwd.2)
    else
      let radius := c.length >>> 1
      let fwd := forward geo (radius : K) s0
      if fwd.1.x ≤ panel.interiorLeftX + radius ∨ fwd.1.x ≥ panel.interiorRightX - radius ∨
         fwd.1.y ≤ panel.interiorBottomY + radius ∨ fwd.1.y ≥ panel.interiorTopY - radius then
        (true, fwd.1, fwd.2)
      else
        let fwd2 := forward geo (radius : K) fwd.1
        (false, fwd2.1, fwd.2 ++ fwd2.2)
  | _, _ => (true, s, [])

/-- `Chromosome.drawSingleSegment`: draw one segment according to the decoded
shape, leaving the pen at the segment start advanced by `length` with the pen
up.  Missing panel or position does nothing. -/
def Chromosome.drawSingleSegment (c : Chromosome) (geo : Geo K)
    (creaturePanel : Option (CreaturePanel K)) (penPosition : Option (PenPosition K))
    (s : PenState K) : PenState K × List (DrawCmd K) :=
  match creaturePanel, penPosition with
  | some _panel, some pos =>
    let s0 := setWidth c.lineWidth (setFillColor c.fillColor
      (setPenColor c.lineColor (pos.restore s)))
    let radius := c.length >>> 1
    let shaped : PenState K × List (DrawCmd K) :=
      if c.shape = 0 then
        (pendown s0, [])
      else
        let inner : PenState K × List (DrawCmd K) :=
          if c.shape = 1 then
            let f1 := forward geo (radius : K) s0
            let d1 := penDot c.length c.lineColor (pendown f1.1)
            let f2 := forward geo (radius : K) (penup d1.1)
            (f2.1, f1.2 ++ d1.2 ++ f2.2)
          else if c.shape = 2 then
            let c1 := penCircle radius (pendown (turnRight 90 s0))
            (penup (turnLeft 90 c1.1), c1.2)
          else if c.shape = 3 then
            let b1 := beginFill (pendown (turnRight 90 s0))
            let c1 := penCircle radius b1.1
            let e1 := endFill c1.1
            (penup (turnLeft 90 e1.1), b1.2 ++ c1.2 ++ e1.2)
          else (s0, [])
        (pos.restore inner.1, inner.2)
    let fwd := forward geo (c.length : K) shaped.1
    (penup fwd.1, shaped.2 ++ fwd.2)
  | _, _ => (s, [])

/-- A genotype: the creature's list of chromosomes (the constructor invariant
keeps the length at `CHROMOSOME_COUNT`). -/
structure Genotype where
  chromosomes : List Chromosome
deriving DecidableEq

/-- `Genotype.CHROMOSOME_COUNT` -/
def Genotype.CHROMOSOME_COUNT : ℕ := 4

/-- `Genotype.MUTATION_RATE_MAXIMUM` -/
def Genotype.MUTATION_RATE_MAXIMUM : ℕ := 2

/-- `Genotype.__init__` with `chromosomes = None` (or a wrong-length list):
every chromosome is generated through the random `Chromosome.__init__` path;
`rands i` stands for the `random.randint(0, 0xFFFFFFFF)` draw of index `i`. -/
def Genotype.randomCreate (rands : ℕ → ℕ) : Genotype :=
  ⟨(List.range Genotype.CHROMOSOME_COUNT).map (fun i => Chromosome.randomCreate i (rands i))⟩

/-- The mutation loop of `Genotype.mutatedCopy`: each element of `mutations`
is one `(chromosomeIndex, bitNumber)` pair drawn by `random.randint`; the
chosen entry of the value list is xor-ed with the single-bit mask. -/
def applyMutations : List (ℕ × ℕ) → List ℕ → List ℕ
  | [], vals => vals
  | (chromosomeIndex, bitNumber) :: rest, vals =>
    applyMutations rest
      (vals.set chromosomeIndex ((vals.getD chromosomeIndex 0) ^^^ (1 <<< bitNumber)))

/-- The list `mutatedChromosomeValues` of `Genotype.mutatedCopy`: the raw
chromosome values copied into an array, then hit by the drawn flips. -/
def mutatedValues (g : Genotype) (mutations : List (ℕ × ℕ)) : List ℕ :=
  applyMutations mutations
    ((List.range Genotype.CHROMOSOME_COUNT).map
      (fun i => (chromAt g.chromosomes i).chromosomeValue))

/-- `Genotype.mutatedCopy`: copy the raw chromosome values, apply the drawn
single-bit flips, and rebuild only the chromosomes whose final raw value
changed, sharing the others with the parent.  The final `Genotype(...)` call
uses the provided list since its length is `CHROMOSOME_COUNT`.  The
`mutations` list stands for the 1 to `MUTATION_RATE_MAXIMUM` random draws. -/
def Genotype.mutatedCopy (g : Genotype) (mutations : List (ℕ × ℕ)) : Genotype :=
  let mutatedChromosomeValues := mutatedValues g mutations
  let newChromosomes :=
    (List.range Genotype.CHROMOSOME_COUNT).map (fun i =>
      let old := chromAt g.chromosomes i
      if old.chromosomeValue ≠ mutatedChromosomeValues.getD i 0 then
        Chromosome.fromValue i (mutatedChromosomeValues.getD i 0)
      else old)
  ⟨newChromosomes⟩

/-- A creature: a wrapper around one genotype. -/
structure Creature where
  genotype : Genotype
deriving DecidableEq

/-- `Creature._MAX_CHROMOSOME_SEGMENTS` -/
def Creature.MAX_CHROMOSOME_SEGMENTS : ℕ := 32

/-- The inner validation loop of `Creature.display` over one chromosome's
pending pen positions: bounds-test each segment, capture its end position,
and collect the next chromosome's child positions budding from it.  A `none`
first component signals the out-of-bounds early `return False`. -/
def validateSegments (geo : Geo K) (creaturePanel : CreaturePanel K)
    (chromosome : Chromosome) (nextChromosome : Option Chromosome) :
    List (PenPosition K) → PenState K →
    Option (List (PenPosition K)) × PenState K × List (DrawCmd K)
  | [], s => (some [], s, [])
  | segmentPenPosition :: rest, s =>
    let oobR := chromosome.segmentOutOfBounds geo (some creaturePanel) (some segmentPenPosition) s
    if oobR.1 then (none, oobR.2.1, oobR.2.2)
    else
      let segmentEndPenPosition := PenPosition.save segmentPenPosition.chiralityRight oobR.2.1
      let childR :=
        match nextChromosome with
        | some nc => nc.childSegmentPositions geo segmentEndPenPosition oobR.2.1
        | none => ([], oobR.2.1, [])
      let restR := validateSegments geo creaturePanel chromosome nextChromosome rest childR.2.1
      match restR.1 with
      | none => (none, restR.2.1, oobR.2.2 ++ childR.2.2 ++ restR.2.2)
      | some more =>
        (some (childR.1 ++ more), restR.2.1, oobR.2.2 ++ childR.2.2 ++ restR.2.2)

/-- The generation-major validation loop of `Creature.display`
(`for chromosomeNumber in range(Genotype.CHROMOSOME_COUNT)`), carrying the
current chromosome's pending positions and the validated table so far.  A
generation with more than `MAX_CHROMOSOME_SEGMENTS` pending positions fails;
an empty generation fails at index 0 and otherwise ends growth early. -/
def growGenerations (geo : Geo K) (creaturePanel : CreaturePanel K)
    (chromosomes : List Chromosome) :
    List ℕ → List (PenPosition K) → List (List (PenPosition K)) → PenState K →
    Option (List (List (PenPosition K))) × PenState K × List (DrawCmd K)
  | [], _pending, acc, s => (some acc, s, [])
  | chromosomeNumber :: restNumbers, pending, acc, s =>
    if pending.length > Creature.MAX_CHROMOSOME_SEGMENTS then (none, s, [])
    else if pending.length = 0 then
      if chromosomeNumber = 0 then (none, s, [])
      else (some (acc ++ List.replicate (restNumbers.length + 1) []), s, [])
    else
      let chromosome := chromAt chromosomes chromosomeNumber
      let nextChromosome :=
        if chromosomeNumber < Genotype.CHROMOSOME_COUNT - 1 then
          some (chromAt chromosomes (chromosomeNumber + 1))
        else none
      let vR := validateSegments geo creaturePanel chromosome nextChromosome pending s
      match vR.1 with
      | none => (none, vR.2.1, vR.2.2)
      | some nextPending =>
        let rR := growGenerations geo creaturePanel chromosomes restNumbers nextPending
          (acc ++ [pending]) vR.2.1
        (rR.1, rR.2.1, vR.2.2 ++ rR.2.2)

/-- The inner drawing loop of `Creature.display` for one chromosome. -/
def drawSegments (geo : Geo K) (creaturePanel : CreaturePanel K) (chromosome : Chromosome) :
    List (PenPosition K) → PenState K → PenState K × List (DrawCmd K)
  | [], s => (s, [])
  | segmentPenPosition :: rest, s =>
    let dR := chromosome.drawSingleSegment geo (some creaturePanel) (some segmentPenPosition) s
    let restR := drawSegments geo creaturePanel chromosome rest dR.1
    (restR.1, dR.2 ++ restR.2)

/-- The generation-major drawing phase of `Creature.display`. -/
def drawPhase (geo : Geo K) (creaturePanel : CreaturePanel K) (chromosomes : List Chromosome)
    (segmentPenPositions : List (List (PenPosition K))) :
    List ℕ → PenState K → PenState K × List (DrawCmd K)
  | [], s => (s, [])
  | chromosomeNumber :: restNumbers, s =>
    let dR := drawSegments geo creaturePanel (chromAt chromosomes chromosomeNumber)
      (segmentPenPositions.getD chromosomeNumber []) s
    let restR := drawPhase geo creaturePanel chromosomes segmentPenPositions restNumbers dR.1
    (restR.1, dR.2 ++ restR.2)

/-- `Creature.display`: two-phase growth.  Phase one seeds generation 0 from
the panel's starting pen position and validates every generation, building
the per-generation table of segment pen positions; phase two draws the table
generation by generation.  Returns the success flag, the table, the final pen
state, and the full trace of drawing commands issued to the cursor. -/
def Creature.display (creature : Creature) (geo : Geo K) (creaturePanel : CreaturePanel K)
    (s : PenState K) :
    Bool × List (List (PenPosition K)) × PenState K × List (DrawCmd K) :=
  let chromosomes := creature.genotype.chromosomes
  let grown := (chromAt chromosomes 0).childSegmentPositions geo
    creaturePanel.startingPenPosition s
  let validated := growGenerations geo creaturePanel chromosomes
    (List.range Genotype.CHROMOSOME_COUNT) grown.1 [] grown.2.1
  match validated.1 with
  | none => (false, [], validated.2.1, grown.2.2 ++ validated.2.2)
  | some segmentPenPositions =>
    let drawn := drawPhase geo creaturePanel chromosomes segmentPenPositions
      (List.range Genotype.CHROMOSOME_COUNT) validated.2.1
    (true, segmentPenPositions, drawn.1, grown.2.2 ++ validated.2.2 ++ drawn.2)

/-- Placeholder pen position used as a list-indexing default. -/
def defaultPenPosition : PenPosition K := ⟨true, 0, 0, 0⟩

/-! ### Bit-level helpers for the gene decoder -/

theorem and_three_shl (v : ℕ) : v &&& 0x00300000 = ((v >>> 20) &&& 3) <<< 20 := by
  have h3 : (0x00300000 : ℕ) = 3 <<< 20 := by norm_num [Nat.shiftLeft_eq]
  rw [h3]
  apply Nat.eq_of_testBit_eq
  intro i
  simp only [Nat.testBit_and, Nat.testBit_shiftLeft, Nat.testBit_shiftRight]
  by_cases h : 20 ≤ i
  · have h2 : 20 + (i - 20) = i := by omega
    simp only [ge_iff_le, h, decide_True, h2, Bool.true_and]
  · simp only [ge_iff_le, h, decide_False, Bool.and_false, Bool.false_and]

theorem width_shift_swallows_one (v : ℕ) :
    (1 + (v &&& 0x00300000)) >>> 20 = (v >>> 20) &&& 3 := by
  rw [and_three_shl, Nat.shiftLeft_eq, Nat.shiftRight_eq_div_pow,
    Nat.add_mul_div_right 1 _ (by norm_num : (0:ℕ) < 2 ^ 20)]
  norm_num

theorem or_prevent_testBit16 (r : ℕ) : (r ||| 0x00010000).testBit 16 = true := by
  rw [Nat.testBit_or]
  have h : (0x00010000 : ℕ).testBit 16 = true := by decide
  simp [h]

theorem branchCount_le_three (x : ℕ) : (x &&& 0x00030000) >>> 16 ≤ 3 := by
  rw [Nat.shiftRight_eq_div_pow]
  calc (x &&& 0x00030000) / 2 ^ 16 ≤ 0x00030000 / 2 ^ 16 :=
        Nat.div_le_div_right Nat.and_le_right
    _ = 3 := by norm_num

theorem branchCount_odd (x : ℕ) (h : x.testBit 16 = true) :
    ((x &&& 0x00030000) >>> 16) % 2 = 1 := by
  have hb : ((x &&& 0x00030000) >>> 16).testBit 0 = true := by
    rw [Nat.testBit_shiftRight, Nat.testBit_and]
    have h30 : (0x00030000 : ℕ).testBit 16 = true := by decide
    simp [h, h30]
  rw [Nat.testBit_zero] at hb
  exact of_decide_eq_true hb

theorem termination_bits_ne_zero (x : ℕ) (h : x.testBit 16 = true) :
    x &&& 0x00030000 ≠ 0 := by
  intro h0
  have h1 := congrArg (fun y => y.testBit 16) h0
  have h30 : (0x00030000 : ℕ).testBit 16 = true := by decide
  simp only [Nat.testBit_and, Nat.zero_testBit, h, h30, Bool.and_true] at h1
  exact absurd h1 (by simp)

/-- Decoded traits of a randomly created chromosome: the termination-prevent
bit is always set, so it never decodes as terminated and its branch count is
odd (1 or 3). -/
theorem randomCreate_traits (index rand : ℕ) :
    (Chromosome.randomCreate index rand).chromosomeValue.testBit 16 = true ∧
    (Chromosome.randomCreate index rand).terminated = false ∧
    ((Chromosome.randomCreate index rand).branchCount = 1 ∨
      (Chromosome.randomCreate index rand).branchCount = 3) := by
  have h16 := or_prevent_testBit16 rand
  refine ⟨h16, ?_, ?_⟩
  · have hne := termination_bits_ne_zero _ h16
    simp only [Chromosome.randomCreate, Chromosome.fromValue]
    exact beq_eq_false_iff_ne.2 hne
  · have hle := branchCount_le_three (rand ||| 0x00010000)
    have hodd := branchCount_odd _ h16
    simp only [Chromosome.randomCreate, Chromosome.fromValue]
    omega

/-! ### Claim theorems: gene decoder -/

/-- C2: at chromosome value 0 the decoded line width is 0, not the claimed 1.
The Python decode `1 + (value & 0x00300000) >> 20` applies the shift to the
sum (addition binds tighter than the shift), so the `+ 1` is swallowed and
`lineWidth` equals the raw 2-bit field at bits 20-21, always in 0-3, never
the claimed field-plus-one in 1-4. -/
theorem C2_lineWidth_precedence :
    (Chromosome.fromValue 0 0).lineWidth = 0 ∧
    ∀ index v, (Chromosome.fromValue index v).lineWidth = (v >>> 20) &&& 3 ∧
      (Chromosome.fromValue index v).lineWidth ≤ 3 := by
  refine ⟨rfl, fun index v => ?_⟩
  have h : (Chromosome.fromValue index v).lineWidth = (v >>> 20) &&& 3 :=
    width_shift_swallows_one v
  exact ⟨h, h ▸ Nat.and_le_right⟩

/-- C9: every chromosome of a randomly created genotype goes through the
random `Chromosome.__init__` path, which forces bit 16 of the raw value to 1;
hence each such chromosome is never terminated and has branch count 1 or 3,
at every index, not only index 0. -/
theorem C9_randomCreate_never_terminated (rands : ℕ → ℕ) (c : Chromosome)
    (hc : c ∈ (Genotype.randomCreate rands).chromosomes) :
    c.chromosomeValue.testBit 16 = true ∧ c.terminated = false ∧
    (c.branchCount = 1 ∨ c.branchCount = 3) := by
  obtain ⟨i, _, rfl⟩ := List.mem_map.1 hc
  exact randomCreate_traits i (rands i)

/-- Witness for C9 at a concrete random draw. -/
theorem C9_randomCreate_never_terminated_witness :
    (Chromosome.randomCreate 2 0xABCD1234) ∈
      (Genotype.randomCreate (fun _ => 0xABCD1234)).chromosomes ∧
    ((Chromosome.randomCreate 2 0xABCD1234).chromosomeValue.testBit 16 = true ∧
      (Chromosome.randomCreate 2 0xABCD1234).terminated = false ∧
      ((Chromosome.randomCreate 2 0xABCD1234).branchCount = 1 ∨
        (Chromosome.randomCreate 2 0xABCD1234).branchCount = 3)) :=
  ⟨by decide, C9_randomCreate_never_terminated (fun _ => 0xABCD1234) _ (by decide)⟩

/-! ### Geometry of child segment positions -/

theorem forward_fst (geo : Geo K) (d : K) (s : PenState K) :
    (forward geo d s).1 = { s with
      x := s.x + d * (geo.dir s.heading).1
      y := s.y + d * (geo.dir s.heading).2 } := rfl

theorem turnBranches_length (a : ℕ) (chir : Bool) (n : ℕ) (s : PenState K) :
    ((turnBranches a chir n s : List (PenPosition K) × PenState K)).1.length = n := by
  induction n generalizing s with
  | zero => rfl
  | succ n ih => simp [turnBranches, ih]

theorem straightBranches_length (geo : Geo K) (len : ℕ) (chir : Bool) (n : ℕ)
    (s : PenState K) : (straightBranches geo len chir n s).1.length = n := by
  induction n generalizing s with
  | zero => rfl
  | succ n ih => simp [straightBranches, ih]

theorem straightBranches_getD (geo : Geo K) (len : ℕ) (chir : Bool) (n : ℕ)
    (s : PenState K) (i : ℕ) (hi : i < n) :
    (straightBranches geo len chir n s).1.getD i defaultPenPosition =
      { chiralityRight := chir
        xPosition := s.x + (i : K) * (len : K) * (geo.dir s.heading).1
        yPosition := s.y + (i : K) * (len : K) * (geo.dir s.heading).2
        heading := s.heading } := by
  induction n generalizing s i with
  | zero => omega
  | succ n ih =>
    cases i with
    | zero =>
      simp [straightBranches, PenPosition.save]
    | succ i =>
      have hi' : i < n := by omega
      simp only [straightBranches, List.getD_cons_succ]
      rw [ih _ _ hi']
      simp only [forward_fst, PenPosition.mk.injEq, true_and, and_true]
      constructor <;> push_cast <;> ring

/-! ### Claim theorems: child segment positions -/

/-- C7: a terminated chromosome produces no child positions; a branching
chromosome (symmetry value 3, i.e. both handedness bits) produces twice its
branch count, and a one-sided branching chromosome (symmetry value 1 or 2)
produces exactly its branch count. -/
theorem C7_childSegmentPositions_counts (c : Chromosome) (geo : Geo K)
    (p : PenPosition K) (s : PenState K) :
    (c.terminated = true → (c.childSegmentPositions geo p s).1 = []) ∧
    (c.terminated = false → c.symmetryBits = 3 →
      (c.childSegmentPositions geo p s).1.length = 2 * c.branchCount) ∧
    (c.terminated = false → (c.symmetryBits = 1 ∨ c.symmetryBits = 2) →
      (c.childSegmentPositions geo p s).1.length = c.branchCount) := by
  refine ⟨fun ht => ?_, fun ht hs => ?_, fun ht hs => ?_⟩
  · simp [Chromosome.childSegmentPositions, ht]
  · simp [Chromosome.childSegmentPositions, ht, hs, turnBranches_length]
    omega
  · rcases hs with hs | hs <;>
      simp [Chromosome.childSegmentPositions, ht, hs, turnBranches_length]

/-- C6: with straight symmetry and no termination, the child positions are
exactly `branchCount` collinear snapshots, the `i`-th at the parent end
position advanced by `i * length` along the parent heading, all sharing the
parent heading and chirality. -/
theorem C6_straight_symmetry_positions (c : Chromosome) (geo : Geo K)
    (p : PenPosition K) (s : PenState K)
    (hterm : c.terminated = false) (hsym : c.symmetryBits = 0)
    (_hbc : c.branchCount = 1 ∨ c.branchCount = 2 ∨ c.branchCount = 3) :
    (c.childSegmentPositions geo p s).1.length = c.branchCount ∧
    ∀ i < c.branchCount,
      (c.childSegmentPositions geo p s).1.getD i defaultPenPosition =
        { chiralityRight := p.chiralityRight
          xPosition := p.xPosition + (i : K) * (c.length : K) * (geo.dir p.heading).1
          yPosition := p.yPosition + (i : K) * (c.length : K) * (geo.dir p.heading).2
          heading := p.heading } := by
  constructor
  · simp [Chromosome.childSegmentPositions, hterm, hsym, straightBranches_length]
  · intro i hi
    simp only [Chromosome.childSegmentPositions, hterm, hsym, Bool.not_false, if_pos,
      PenPosition.restore]
    rw [straightBranches_getD _ _ _ _ _ _ hi]

/-! ### Concrete instances for witnesses (coordinates in ℤ) -/

/-- Arbitrary direction table over ℤ used by the witnesses. -/
def geoZ : Geo ℤ := ⟨fun h => (h + 1, h - 2)⟩

/-- Direction table pointing along the positive x-axis at every heading. -/
def geoX : Geo ℤ := ⟨fun _ => (1, 0)⟩

/-- A concrete pen position. -/
def posZ : PenPosition ℤ := ⟨false, 3, -4, 30⟩

/-- A concrete pen state. -/
def penZ : PenState ℤ := ⟨0, 0, 90, false, "black", "black", 1⟩

/-- Witness for C6: straight symmetry, branch count 2, length 3. -/
theorem C6_straight_symmetry_positions_witness :
    ((Chromosome.fromValue 0 0x200C0).terminated = false ∧
      (Chromosome.fromValue 0 0x200C0).symmetryBits = 0 ∧
      ((Chromosome.fromValue 0 0x200C0).branchCount = 1 ∨
        (Chromosome.fromValue 0 0x200C0).branchCount = 2 ∨
        (Chromosome.fromValue 0 0x200C0).branchCount = 3)) ∧
    (((Chromosome.fromValue 0 0x200C0).childSegmentPositions geoZ posZ penZ).1.length =
        (Chromosome.fromValue 0 0x200C0).branchCount ∧
      ∀ i < (Chromosome.fromValue 0 0x200C0).branchCount,
        ((Chromosome.fromValue 0 0x200C0).childSegmentPositions geoZ posZ penZ).1.getD i
            defaultPenPosition =
          { chiralityRight := posZ.chiralityRight
            xPosition := posZ.xPosition +
              (i : ℤ) * ((Chromosome.fromValue 0 0x200C0).length : ℤ) *
                (geoZ.dir posZ.heading).1
            yPosition := posZ.yPosition +
              (i : ℤ) * ((Chromosome.fromValue 0 0x200C0).length : ℤ) *
                (geoZ.dir posZ.heading).2
            heading := posZ.heading }) :=
  ⟨⟨by decide, by decide, by decide⟩,
    C6_straight_symmetry_positions _ geoZ posZ penZ (by decide) (by decide) (by decide)⟩

/-- Witness for C7: a terminated chromosome, a bilateral chromosome
(symmetry 3, branch count 2) and a same-handed chromosome (symmetry 1,
branch count 3). -/
theorem C7_childSegmentPositions_counts_witness :
    ((Chromosome.fromValue 0 0).terminated = true ∧
      ((Chromosome.fromValue 0 0).childSegmentPositions geoZ posZ penZ).1 = []) ∧
    ((Chromosome.fromValue 0 0x23000).terminated = false ∧
      (Chromosome.fromValue 0 0x23000).symmetryBits = 3 ∧
      ((Chromosome.fromValue 0 0x23000).childSegmentPositions geoZ posZ penZ).1.length =
        2 * (Chromosome.fromValue 0 0x23000).branchCount) ∧
    ((Chromosome.fromValue 0 0x31000).terminated = false ∧
      ((Chromosome.fromValue 0 0x31000).symmetryBits = 1 ∨
        (Chromosome.fromValue 0 0x31000).symmetryBits = 2) ∧
      ((Chromosome.fromValue 0 0x31000).childSegmentPositions geoZ posZ penZ).1.length =
        (Chromosome.fromValue 0 0x31000).branchCount) :=
  ⟨⟨by decide, (C7_childSegmentPositions_counts _ geoZ posZ penZ).1 (by decide)⟩,
    ⟨by decide, by decide,
      (C7_childSegmentPositions_counts _ geoZ posZ penZ).2.1 (by decide) (by decide)⟩,
    ⟨by decide, by decide,
      (C7_childSegmentPositions_counts _ geoZ posZ penZ).2.2 (by decide) (by decide)⟩⟩

/-- A concrete bounding panel with the starting position at its center. -/
def panelZ : CreaturePanel ℤ := ⟨-100, -100, 100, 100, ⟨true, 0, 0, 90⟩⟩

/-- C10: for a non-line segment that passes the bounds test, the validation
simulation leaves the pen at the start advanced by `2 * (length / 2)` along
the heading, while drawing leaves it advanced by the full `length`; for odd
lengths the validation end position (which seeds the next generation) is one
unit of forward motion short of the drawn endpoint. -/
theorem C10_validation_vs_draw_endpoint (c : Chromosome) (geo : Geo K)
    (panel : CreaturePanel K) (p : PenPosition K) (s s' : PenState K)
    (hshape : c.shape ≠ 0)
    (hoob : (c.segmentOutOfBounds geo (some panel) (some p) s).1 = false) :
    ((c.segmentOutOfBounds geo (some panel) (some p) s).2.1.x =
        p.xPosition + ((2 * (c.length >>> 1) : ℕ) : K) * (geo.dir p.heading).1 ∧
      (c.segmentOutOfBounds geo (some panel) (some p) s).2.1.y =
        p.yPosition + ((2 * (c.length >>> 1) : ℕ) : K) * (geo.dir p.heading).2) ∧
    ((c.drawSingleSegment geo (some panel) (some p) s').1.x =
        p.xPosition + (c.length : K) * (geo.dir p.heading).1 ∧
      (c.drawSingleSegment geo (some panel) (some p) s').1.y =
        p.yPosition + (c.length : K) * (geo.dir p.heading).2) ∧
    (c.length % 2 = 1 →
      ((c.drawSingleSegment geo (some panel) (some p) s').1.x =
        (c.segmentOutOfBounds geo (some panel) (some p) s).2.1.x + (geo.dir p.heading).1 ∧
      (c.drawSingleSegment geo (some panel) (some p) s').1.y =
        (c.segmentOutOfBounds geo (some panel) (some p) s).2.1.y + (geo.dir p.heading).2)) := by
  have hval : (c.segmentOutOfBounds geo (some panel) (some p) s).2.1.x =
        p.xPosition + ((2 * (c.length >>> 1) : ℕ) : K) * (geo.dir p.heading).1 ∧
      (c.segmentOutOfBounds geo (some panel) (some p) s).2.1.y =
        p.yPosition + ((2 * (c.length >>> 1) : ℕ) : K) * (geo.dir p.heading).2 := by
    have hres : (c.segmentOutOfBounds geo (some panel) (some p) s).1 = true ∨
        (c.segmentOutOfBounds geo (some panel) (some p) s).2.1 =
          (forward geo ((c.length >>> 1 : ℕ) : K)
            (forward geo ((c.length >>> 1 : ℕ) : K) (p.restore s)).1).1 := by
      simp only [Chromosome.segmentOutOfBounds, if_neg hshape]
      split
      · exact Or.inl rfl
      · exact Or.inr rfl
    rcases hres with h | h
    · rw [h] at hoob; cases hoob
    · rw [h]
      simp only [forward_fst, PenPosition.restore]
      constructor <;> push_cast <;> ring_nf
  have hdraw : (c.drawSingleSegment geo (some panel) (some p) s').1.x =
        p.xPosition + (c.length : K) * (geo.dir p.heading).1 ∧
      (c.drawSingleSegment geo (some panel) (some p) s').1.y =
        p.yPosition + (c.length : K) * (geo.dir p.heading).2 := by
    simp only [Chromosome.drawSingleSegment, if_neg hshape, forward_fst, penup,
      PenPosition.restore]
    constructor <;> ring
  refine ⟨hval, hdraw, fun hodd => ?_⟩
  obtain ⟨q, hq⟩ : ∃ q, c.length = 2 * q + 1 := ⟨c.length / 2, by omega⟩
  have hr : c.length >>> 1 = q := by
    rw [Nat.shiftRight_eq_div_pow]
    omega
  rw [hdraw.1, hdraw.2, hval.1, hval.2, hr, hq]
  constructor <;> push_cast <;> ring_nf

/-- Witness for C10: a dot of odd diameter 5 at the panel center. -/
theorem C10_validation_vs_draw_endpoint_witness :
    ((Chromosome.fromValue 0 0x40140).shape ≠ 0 ∧
      ((Chromosome.fromValue 0 0x40140).segmentOutOfBounds geoX (some panelZ)
        (some panelZ.startingPenPosition) penZ).1 = false ∧
      (Chromosome.fromValue 0 0x40140).length % 2 = 1) ∧
    (((Chromosome.fromValue 0 0x40140).drawSingleSegment geoX (some panelZ)
        (some panelZ.startingPenPosition) penZ).1.x =
      ((Chromosome.fromValue 0 0x40140).segmentOutOfBounds geoX (some panelZ)
        (some panelZ.startingPenPosition) penZ).2.1.x +
        (geoX.dir panelZ.startingPenPosition.heading).1 ∧
    ((Chromosome.fromValue 0 0x40140).drawSingleSegment geoX (some panelZ)
        (some panelZ.startingPenPosition) penZ).1.y =
      ((Chromosome.fromValue 0 0x40140).segmentOutOfBounds geoX (some panelZ)
        (some panelZ.startingPenPosition) penZ).2.1.y +
        (geoX.dir panelZ.startingPenPosition.heading).2) :=
  ⟨⟨by decide, by decide, by decide⟩,
    (C10_validation_vs_draw_endpoint (Chromosome.fromValue 0 0x40140) geoX panelZ
      panelZ.startingPenPosition penZ penZ (by decide) (by decide)).2.2 (by decide)⟩

/-! ### Mutation: flip masks and changed-chromosome sets -/

/-- The combined xor mask that the drawn `mutations` apply to the raw value
of chromosome `i` (the fold of all single-bit masks aimed at index `i`). -/
def flipMask (mutations : List (ℕ × ℕ)) (i : ℕ) : ℕ :=
  mutations.foldr (fun m acc => if m.1 = i then acc ^^^ (1 <<< m.2) else acc) 0

/-- The set of chromosome indices whose raw value differs between a genotype
and its mutated copy. -/
def diffSet (g : Genotype) (mutations : List (ℕ × ℕ)) : Finset ℕ :=
  (Finset.range Genotype.CHROMOSOME_COUNT).filter (fun i =>
    (chromAt (g.mutatedCopy mutations).chromosomes i).chromosomeValue ≠
      (chromAt g.chromosomes i).chromosomeValue)

theorem getD_map_range {α : Type} (f : ℕ → α) (n i : ℕ) (d : α) (h : i < n) :
    ((List.range n).map f).getD i d = f i := by
  simp [List.getD_eq_getElem?_getD, List.getElem?_map, List.getElem?_range h]

theorem xor_eq_self_iff (a m : ℕ) : a ^^^ m = a ↔ m = 0 := by
  constructor
  · intro h
    have h1 : a ^^^ (a ^^^ m) = a ^^^ a := congrArg (a ^^^ ·) h
    simpa [← Nat.xor_assoc, Nat.xor_self, Nat.zero_xor] using h1
  · rintro rfl
    exact Nat.xor_zero a

theorem applyMutations_getD (mutations : List (ℕ × ℕ)) (vals : List ℕ) (i : ℕ)
    (hi : i < vals.length) (hm : ∀ m ∈ mutations, m.1 < vals.length) :
    (applyMutations mutations vals).getD i 0 = vals.getD i 0 ^^^ flipMask mutations i := by
  induction mutations generalizing vals with
  | nil => simp [applyMutations, flipMask]
  | cons m rest ih =>
    obtain ⟨ci, b⟩ := m
    have hci : ci < vals.length := (hm _ (List.mem_cons_self _ _))
    have hlen : (vals.set ci (vals.getD ci 0 ^^^ 1 <<< b)).length = vals.length := by simp
    have hrest : ∀ m' ∈ rest, m'.1 < (vals.set ci (vals.getD ci 0 ^^^ 1 <<< b)).length := by
      intro m' hm'
      rw [hlen]
      exact hm _ (List.mem_cons_of_mem _ hm')
    have hfm : flipMask ((ci, b) :: rest) i =
        if ci = i then flipMask rest i ^^^ 1 <<< b else flipMask rest i := rfl
    rw [applyMutations, ih _ (by rw [hlen]; exact hi) hrest, hfm]
    by_cases hc : ci = i
    · subst hc
      rw [List.getD_eq_getElem _ _ (by simpa using hci), List.getElem_set_self _]
      simp only [if_pos]
      rw [Nat.xor_assoc, Nat.xor_comm (1 <<< b) (flipMask rest ci)]
    · rw [List.getD_eq_getElem?_getD, List.getElem?_set_ne hc, ← List.getD_eq_getElem?_getD]
      simp [hc]


theorem chromAt_mutatedCopy (g : Genotype) (mutations : List (ℕ × ℕ)) (i : ℕ)
    (hi : i < Genotype.CHROMOSOME_COUNT) :
    chromAt (g.mutatedCopy mutations).chromosomes i =
      if (chromAt g.chromosomes i).chromosomeValue ≠ (mutatedValues g mutations).getD i 0 then
        Chromosome.fromValue i ((mutatedValues g mutations).getD i 0)
      else chromAt g.chromosomes i := by
  conv_lhs => rw [Genotype.mutatedCopy, chromAt]
  rw [getD_map_range _ _ _ _ hi]

theorem mutatedValues_getD (g : Genotype) (mutations : List (ℕ × ℕ)) (i : ℕ)
    (hi : i < Genotype.CHROMOSOME_COUNT)
    (hm : ∀ m ∈ mutations, m.1 < Genotype.CHROMOSOME_COUNT) :
    (mutatedValues g mutations).getD i 0 =
      (chromAt g.chromosomes i).chromosomeValue ^^^ flipMask mutations i := by
  have hlen : ((List.range Genotype.CHROMOSOME_COUNT).map
      (fun j => (chromAt g.chromosomes j).chromosomeValue)).length =
      Genotype.CHROMOSOME_COUNT := by simp
  rw [mutatedValues, applyMutations_getD _ _ _ (by rw [hlen]; exact hi)
    (by intro m hm'; rw [hlen]; exact (hm m hm')), getD_map_range _ _ _ _ hi]

theorem mutatedCopy_value (g : Genotype) (mutations : List (ℕ × ℕ)) (i : ℕ)
    (hi : i < Genotype.CHROMOSOME_COUNT)
    (hm : ∀ m ∈ mutations, m.1 < Genotype.CHROMOSOME_COUNT) :
    (chromAt (g.mutatedCopy mutations).chromosomes i).chromosomeValue =
      (chromAt g.chromosomes i).chromosomeValue ^^^ flipMask mutations i := by
  have hv := mutatedValues_getD g mutations i hi hm
  rw [chromAt_mutatedCopy g mutations i hi]
  by_cases hne : (chromAt g.chromosomes i).chromosomeValue = (mutatedValues g mutations).getD i 0
  · rw [if_neg (by simp [hne])]
    rw [← hv]
    exact hne
  · rw [if_pos hne]
    rw [← hv]
    rfl

theorem mem_diffSet (g : Genotype) (mutations : List (ℕ × ℕ)) (i : ℕ)
    (hm : ∀ m ∈ mutations, m.1 < Genotype.CHROMOSOME_COUNT) :
    i ∈ diffSet g mutations ↔ i < Genotype.CHROMOSOME_COUNT ∧ flipMask mutations i ≠ 0 := by
  rw [diffSet, Finset.mem_filter, Finset.mem_range]
  constructor
  · rintro ⟨h1, h2⟩
    refine ⟨h1, fun h0 => h2 ?_⟩
    rw [mutatedCopy_value g mutations i h1 hm, h0, Nat.xor_zero]
  · rintro ⟨h1, h2⟩
    refine ⟨h1, fun heq => h2 ?_⟩
    rw [mutatedCopy_value g mutations i h1 hm] at heq
    exact (xor_eq_self_iff _ _).1 heq

theorem flipMask_single (a : ℕ × ℕ) (i : ℕ) :
    flipMask [a] i = if a.1 = i then 1 <<< a.2 else 0 := by
  simp [flipMask]

theorem flipMask_pair (a b : ℕ × ℕ) (i : ℕ) :
    flipMask [a, b] i = (if a.1 = i then (if b.1 = i then 1 <<< b.2 else 0) ^^^ 1 <<< a.2
      else (if b.1 = i then 1 <<< b.2 else 0)) := by
  by_cases ha : a.1 = i <;> by_cases hb : b.1 = i <;> simp [flipMask, ha, hb]

theorem one_shiftLeft_ne_zero (b : ℕ) : 1 <<< b ≠ 0 := by
  rw [Nat.shiftLeft_eq, one_mul]
  exact (Nat.pos_pow_of_pos b (by norm_num)).ne'

theorem two_pow_xor_ne_zero (b1 b2 : ℕ) (h : b1 ≠ b2) : (1 <<< b1) ^^^ (1 <<< b2) ≠ 0 := by
  intro h0
  have h1 := congrArg (fun y => y.testBit b1) h0
  simp only [Nat.testBit_xor, Nat.zero_testBit] at h1
  rw [Nat.shiftLeft_eq, one_mul, Nat.shiftLeft_eq, one_mul] at h1
  rw [Nat.testBit_two_pow_self, Nat.testBit_two_pow_of_ne (Ne.symm h)] at h1
  simp at h1


/-- C8: `mutatedCopy` works copy-on-write at chromosome granularity: the
child has `CHROMOSOME_COUNT` chromosomes; at every index whose final raw
value equals the parent's, the child holds the parent's chromosome itself,
and only at indices whose final raw value differs is a chromosome
reconstructed by re-decoding.  The parent genotype is a pure value and is
never modified. -/
theorem C8_mutatedCopy_copy_on_write (g : Genotype) (mutations : List (ℕ × ℕ)) :
    (g.mutatedCopy mutations).chromosomes.length = Genotype.CHROMOSOME_COUNT ∧
    ∀ i < Genotype.CHROMOSOME_COUNT,
      ((chromAt g.chromosomes i).chromosomeValue = (mutatedValues g mutations).getD i 0 →
        chromAt (g.mutatedCopy mutations).chromosomes i = chromAt g.chromosomes i) ∧
      ((chromAt g.chromosomes i).chromosomeValue ≠ (mutatedValues g mutations).getD i 0 →
        chromAt (g.mutatedCopy mutations).chromosomes i =
          Chromosome.fromValue i ((mutatedValues g mutations).getD i 0)) := by
  constructor
  · simp [Genotype.mutatedCopy]
  · intro i hi
    rw [chromAt_mutatedCopy g mutations i hi]
    constructor
    · intro he
      rw [if_neg (by simp [he])]
    · intro hne
      rw [if_pos hne]

/-- C3 (amended): with 1 to `MUTATION_RATE_MAXIMUM` single-bit flips drawn,
every chromosome of the mutated copy differs from the parent by exactly the
xor of the flips aimed at it, at most `mutations.length ≤ 2` chromosomes
differ, and at least 1 differs unless the two flips are identical (same
chromosome and same bit), in which case they cancel and no chromosome
differs. -/
theorem C3_mutatedCopy_mutation_bounds (g : Genotype) (mutations : List (ℕ × ℕ))
    (h1 : 1 ≤ mutations.length)
    (h2 : mutations.length ≤ Genotype.MUTATION_RATE_MAXIMUM)
    (hrange : ∀ m ∈ mutations, m.1 < Genotype.CHROMOSOME_COUNT ∧ m.2 < 32) :
    (∀ i < Genotype.CHROMOSOME_COUNT,
      (chromAt (g.mutatedCopy mutations).chromosomes i).chromosomeValue =
        (chromAt g.chromosomes i).chromosomeValue ^^^ flipMask mutations i) ∧
    (diffSet g mutations).card ≤ mutations.length ∧
    ((¬ ∃ m, mutations = [m, m]) → 1 ≤ (diffSet g mutations).card) := by
  have hm : ∀ m ∈ mutations, m.1 < Genotype.CHROMOSOME_COUNT :=
    fun m hm' => (hrange m hm').1
  refine ⟨fun i hi => mutatedCopy_value g mutations i hi hm, ?_, ?_⟩
  · rcases mutations with _ | ⟨a, rest⟩
    · simp at h1
    rcases rest with _ | ⟨b, rest2⟩
    · have hsub : diffSet g [a] ⊆ {a.1} := by
        intro i hi
        rw [mem_diffSet g [a] i hm] at hi
        rw [flipMask_single] at hi
        by_cases hai : a.1 = i
        · simp [hai]
        · simp [hai] at hi
      calc (diffSet g [a]).card ≤ ({a.1} : Finset ℕ).card := Finset.card_le_card hsub
        _ ≤ [a].length := by simp
    rcases rest2 with _ | ⟨c, rest3⟩
    · have hsub : diffSet g [a, b] ⊆ {a.1, b.1} := by
        intro i hi
        rw [mem_diffSet g [a, b] i hm] at hi
        rw [flipMask_pair] at hi
        by_cases hai : a.1 = i
        · simp [hai]
        · by_cases hbi : b.1 = i
          · simp [hbi]
          · simp [hai, hbi] at hi
      calc (diffSet g [a, b]).card ≤ ({a.1, b.1} : Finset ℕ).card := Finset.card_le_card hsub
        _ ≤ 2 := by
              refine le_trans (Finset.card_insert_le _ _) ?_
              simp
        _ ≤ [a, b].length := by simp
    · simp [Genotype.MUTATION_RATE_MAXIMUM] at h2
  · intro hne
    rcases mutations with _ | ⟨a, rest⟩
    · simp at h1
    rcases rest with _ | ⟨b, rest2⟩
    · have hmem : a.1 ∈ diffSet g [a] := by
        rw [mem_diffSet g [a] _ hm]
        refine ⟨(hrange a (by simp)).1, ?_⟩
        rw [flipMask_single, if_pos rfl]
        exact one_shiftLeft_ne_zero a.2
      exact Finset.card_pos.2 ⟨a.1, hmem⟩
    rcases rest2 with _ | ⟨c, rest3⟩
    · have hab : a ≠ b := by
        intro h
        exact hne ⟨a, by rw [← h]⟩
      have hmem : a.1 ∈ diffSet g [a, b] := by
        rw [mem_diffSet g [a, b] _ hm]
        refine ⟨(hrange a (by simp)).1, ?_⟩
        rw [flipMask_pair]
        by_cases hb1 : b.1 = a.1
        · rw [if_pos rfl, if_pos hb1]
          have hb2 : b.2 ≠ a.2 := by
            intro h22
            apply hab
            obtain ⟨a1, a2⟩ := a
            obtain ⟨b1, b2⟩ := b
            simp only at hb1 h22
            rw [hb1, h22]
          exact two_pow_xor_ne_zero b.2 a.2 hb2
        · rw [if_pos rfl, if_neg hb1, Nat.zero_xor]
          exact one_shiftLeft_ne_zero a.2
      exact Finset.card_pos.2 ⟨a.1, hmem⟩
    · simp [Genotype.MUTATION_RATE_MAXIMUM] at h2


/-- A concrete genotype used by the mutation witnesses. -/
def genotype3 : Genotype := ⟨[Chromosome.fromValue 0 17, Chromosome.fromValue 1 23,
  Chromosome.fromValue 2 99, Chromosome.fromValue 3 4]⟩

/-- Counterexample to C3 as stated: two flips aimed at the same chromosome
and the same bit (both valid draws) cancel, so the returned genotype differs
from the original in zero chromosomes, not at least 1. -/
theorem C3_cancelling_flips_counterexample :
    (1 ≤ ([((0:ℕ), (5:ℕ)), (0, 5)]).length ∧
      ([((0:ℕ), (5:ℕ)), (0, 5)]).length ≤ Genotype.MUTATION_RATE_MAXIMUM ∧
      ∀ m ∈ [((0:ℕ), (5:ℕ)), (0, 5)], m.1 < Genotype.CHROMOSOME_COUNT ∧ m.2 < 32) ∧
    (diffSet genotype3 [(0, 5), (0, 5)]).card = 0 ∧
    (∀ i < Genotype.CHROMOSOME_COUNT,
      (chromAt (genotype3.mutatedCopy [(0, 5), (0, 5)]).chromosomes i).chromosomeValue =
        (chromAt genotype3.chromosomes i).chromosomeValue) := by decide

/-- Witness for C3 (amended) at two non-cancelling flips. -/
theorem C3_mutatedCopy_mutation_bounds_witness :
    (1 ≤ ([((0:ℕ), (2:ℕ)), (1, 3)]).length ∧
      ([((0:ℕ), (2:ℕ)), (1, 3)]).length ≤ Genotype.MUTATION_RATE_MAXIMUM ∧
      (∀ m ∈ [((0:ℕ), (2:ℕ)), (1, 3)], m.1 < Genotype.CHROMOSOME_COUNT ∧ m.2 < 32) ∧
      ¬ ∃ m, ([((0:ℕ), (2:ℕ)), (1, 3)]) = [m, m]) ∧
    (diffSet genotype3 [(0, 2), (1, 3)]).card ≤ ([((0:ℕ), (2:ℕ)), (1, 3)]).length ∧
    1 ≤ (diffSet genotype3 [(0, 2), (1, 3)]).card :=
  ⟨⟨by decide, by decide, by decide, by rintro ⟨⟨m1, m2⟩, h⟩; simp [Prod.ext_iff] at h; omega⟩,
    (C3_mutatedCopy_mutation_bounds genotype3 _ (by decide) (by decide) (by decide)).2.1,
    (C3_mutatedCopy_mutation_bounds genotype3 _ (by decide) (by decide) (by decide)).2.2
      (by rintro ⟨⟨m1, m2⟩, h⟩; simp [Prod.ext_iff] at h; omega)⟩

/-- Witness for C8: one flip on chromosome 0; chromosome 1 is shared
unchanged while chromosome 0 is reconstructed. -/
theorem C8_mutatedCopy_copy_on_write_witness :
    ((chromAt genotype3.chromosomes 1).chromosomeValue =
        (mutatedValues genotype3 [(0, 3)]).getD 1 0 ∧
      chromAt (genotype3.mutatedCopy [(0, 3)]).chromosomes 1 =
        chromAt genotype3.chromosomes 1) ∧
    ((chromAt genotype3.chromosomes 0).chromosomeValue ≠
        (mutatedValues genotype3 [(0, 3)]).getD 0 0 ∧
      chromAt (genotype3.mutatedCopy [(0, 3)]).chromosomes 0 =
        Chromosome.fromValue 0 ((mutatedValues genotype3 [(0, 3)]).getD 0 0)) :=
  ⟨⟨by decide, ((C8_mutatedCopy_copy_on_write genotype3 [(0, 3)]).2 1 (by decide)).1 (by decide)⟩,
    ⟨by decide, ((C8_mutatedCopy_copy_on_write genotype3 [(0, 3)]).2 0 (by decide)).2 (by decide)⟩⟩

/-! ### The two-phase display pipeline: validation draws nothing -/

theorem forward_penDown (geo : Geo K) (d : K) (s : PenState K) :
    (forward geo d s).1.penDown = s.penDown := rfl

theorem forward_trace_of_penUp (geo : Geo K) (d : K) (s : PenState K)
    (h : s.penDown = false) : (forward geo d s).2 = [] := by
  simp [forward, h]

theorem straightBranches_trace (geo : Geo K) (len : ℕ) (chir : Bool) (n : ℕ)
    (s : PenState K) (h : s.penDown = false) :
    (straightBranches geo len chir n s).2.2 = [] := by
  induction n generalizing s with
  | zero => rfl
  | succ n ih =>
    have h1 : (forward geo (len : K) s).1.penDown = false := by
      rw [forward_penDown, h]
    simp [straightBranches, forward_trace_of_penUp _ _ _ h, ih _ h1]

theorem childSegmentPositions_trace (c : Chromosome) (geo : Geo K)
    (p : PenPosition K) (s : PenState K) :
    (c.childSegmentPositions geo p s).2.2 = [] := by
  rw [Chromosome.childSegmentPositions]
  by_cases ht : c.terminated
  · simp [ht]
  · by_cases hs : c.symmetryBits = 0
    · simp only [ht, Bool.not_true, Bool.not_false, if_pos, hs, if_true]
      exact straightBranches_trace _ _ _ _ _ rfl
    · simp [ht, hs]

theorem segmentOutOfBounds_trace (c : Chromosome) (geo : Geo K)
    (panel : Option (CreaturePanel K)) (pos : Option (PenPosition K)) (s : PenState K) :
    (c.segmentOutOfBounds geo panel pos s).2.2 = [] := by
  rcases panel with _ | panel <;> rcases pos with _ | pos <;> try rfl
  rw [Chromosome.segmentOutOfBounds]
  by_cases hsh : c.shape = 0
  · simp only [hsh, if_true]
    have h0 : (forward geo ((c.length : ℕ) : K) (pos.restore s)).2 = [] :=
      forward_trace_of_penUp _ _ _ rfl
    split <;> simp [h0]
  · simp only [hsh, if_false]
    have h0 : (forward geo ((c.length >>> 1 : ℕ) : K) (pos.restore s)).2 = [] :=
      forward_trace_of_penUp _ _ _ rfl
    have h1 : (forward geo ((c.length >>> 1 : ℕ) : K)
        (forward geo ((c.length >>> 1 : ℕ) : K) (pos.restore s)).1).2 = [] :=
      forward_trace_of_penUp _ _ _ (by rw [forward_penDown]; rfl)
    split <;> simp [h0, h1]

theorem validateSegments_trace (geo : Geo K) (creaturePanel : CreaturePanel K)
    (chromosome : Chromosome) (nextChromosome : Option Chromosome)
    (ps : List (PenPosition K)) (s : PenState K) :
    (validateSegments geo creaturePanel chromosome nextChromosome ps s).2.2 = [] := by
  induction ps generalizing s with
  | nil => rfl
  | cons p rest ih =>
    cases nextChromosome with
    | none =>
      simp only [validateSegments]
      split
      · exact segmentOutOfBounds_trace _ _ _ _ _
      · split <;>
          simp [segmentOutOfBounds_trace, ih]
    | some nc =>
      simp only [validateSegments]
      split
      · exact segmentOutOfBounds_trace _ _ _ _ _
      · split <;>
          simp [segmentOutOfBounds_trace, childSegmentPositions_trace, ih]

theorem growGenerations_trace (geo : Geo K) (creaturePanel : CreaturePanel K)
    (chromosomes : List Chromosome) (gens : List ℕ) (pending : List (PenPosition K))
    (acc : List (List (PenPosition K))) (s : PenState K) :
    (growGenerations geo creaturePanel chromosomes gens pending acc s).2.2 = [] := by
  induction gens generalizing pending acc s with
  | nil => rfl
  | cons g gs ih =>
    by_cases h1 : pending.length > Creature.MAX_CHROMOSOME_SEGMENTS
    · simp [growGenerations, h1]
    · by_cases h2 : pending.length = 0
      · by_cases h3 : g = 0 <;> simp [growGenerations, h1, h2, h3]
      · simp only [growGenerations, if_neg h1, if_neg h2]
        split
        · exact validateSegments_trace _ _ _ _ _ _
        · simp [validateSegments_trace, ih]


/-- C1: if the validation phase fails (in particular when any segment of any
generation fails the bounds test), `display` returns `False` and the trace of
drawing commands issued to the cursor is empty; commands are only issued by
the drawing phase, which runs only after every generation has validated. -/
theorem C1_bounds_failure_draws_nothing (creature : Creature) (geo : Geo K)
    (creaturePanel : CreaturePanel K) (s : PenState K) :
    ((growGenerations geo creaturePanel creature.genotype.chromosomes
        (List.range Genotype.CHROMOSOME_COUNT)
        ((chromAt creature.genotype.chromosomes 0).childSegmentPositions geo
          creaturePanel.startingPenPosition s).1 []
        ((chromAt creature.genotype.chromosomes 0).childSegmentPositions geo
          creaturePanel.startingPenPosition s).2.1).1 = none →
      (creature.display geo creaturePanel s).1 = false) ∧
    ((creature.display geo creaturePanel s).1 = false →
      (creature.display geo creaturePanel s).2.2.2 = []) := by
  constructor
  · intro h
    simp only [Creature.display]
    split
    · rfl
    · next segs heq =>
        rw [h] at heq
        cases heq
  · intro h
    simp only [Creature.display] at h ⊢
    split
    · next heq =>
        simp only [childSegmentPositions_trace, growGenerations_trace, List.append_nil]
    · next segs heq =>
        rw [heq] at h
        simp at h


/-- Any generation table produced by a successful validation pass keeps every
generation at or below the segment budget. -/
theorem growGenerations_pending_bound (geo : Geo K) (creaturePanel : CreaturePanel K)
    (chromosomes : List Chromosome) (gens : List ℕ) :
    ∀ (pending : List (PenPosition K)) (acc : List (List (PenPosition K)))
      (s : PenState K) (table : List (List (PenPosition K))),
      (growGenerations geo creaturePanel chromosomes gens pending acc s).1 = some table →
      (∀ l ∈ acc, l.length ≤ Creature.MAX_CHROMOSOME_SEGMENTS) →
      ∀ l ∈ table, l.length ≤ Creature.MAX_CHROMOSOME_SEGMENTS := by
  induction gens with
  | nil =>
    intro pending acc s table h hacc
    simp only [growGenerations, Option.some.injEq] at h
    rw [← h]
    exact hacc
  | cons g gs ih =>
    intro pending acc s table h hacc
    by_cases h1 : pending.length > Creature.MAX_CHROMOSOME_SEGMENTS
    · simp [growGenerations, h1] at h
    · by_cases h2 : pending.length = 0
      · by_cases h3 : g = 0
        · simp [growGenerations, h1, h2, h3] at h
        · simp only [growGenerations, if_neg h1, if_pos h2, if_neg h3,
            Option.some.injEq] at h
          rw [← h]
          intro l hl
          rcases List.mem_append.1 hl with hl | hl
          · exact hacc l hl
          · rw [List.eq_of_mem_replicate hl]
            simp
      · simp only [growGenerations, if_neg h1, if_neg h2] at h
        split at h
        · simp at h
        · next nextPending heq =>
            refine ih nextPending (acc ++ [pending]) _ table h ?_
            intro l hl
            rcases List.mem_append.1 hl with hl | hl
            · exact hacc l hl
            · rw [List.mem_singleton.1 hl]
              omega

/-- C4: whenever any generation's pending snapshot count exceeds
`MAX_CHROMOSOME_SEGMENTS` (32), `display` cannot return `True`: every
generation list of a successful display is at most 32 long, spatial bounds
notwithstanding. -/
theorem C4_resource_cutoff (creature : Creature) (geo : Geo K)
    (creaturePanel : CreaturePanel K) (s : PenState K) :
    (creature.display geo creaturePanel s).1 = true →
    ∀ l ∈ (creature.display geo creaturePanel s).2.1,
      l.length ≤ Creature.MAX_CHROMOSOME_SEGMENTS := by
  intro h
  simp only [Creature.display] at h ⊢
  split at h
  · simp at h
  · next segs heq =>
      exact growGenerations_pending_bound _ _ _ _ _ _ _ _ heq (fun l hl => by cases hl)


/-- A terminated chromosome buds no child segments. -/
theorem childSegmentPositions_terminated (c : Chromosome) (geo : Geo K)
    (p : PenPosition K) (s : PenState K) (h : c.terminated = true) :
    (c.childSegmentPositions geo p s).1 = [] := by
  simp [Chromosome.childSegmentPositions, h]

/-- Validating a generation whose successor chromosome is terminated
produces an empty pending list for the next generation. -/
theorem validateSegments_next_terminated (geo : Geo K) (creaturePanel : CreaturePanel K)
    (chromosome nc : Chromosome) (hterm : nc.terminated = true) :
    ∀ (ps : List (PenPosition K)) (s : PenState K) (children : List (PenPosition K)),
      (validateSegments geo creaturePanel chromosome (some nc) ps s).1 = some children →
      children = [] := by
  intro ps
  induction ps with
  | nil =>
    intro s children h
    simp only [validateSegments, Option.some.injEq] at h
    exact h.symm
  | cons p rest ih =>
    intro s children h
    simp only [validateSegments] at h
    split at h
    · cases h
    · split at h
      · cases h
      · next more heq =>
          injection h with h
          rw [← h, childSegmentPositions_terminated _ _ _ _ hterm, List.nil_append]
          exact ih _ _ heq

/-- An empty pending list at a generation other than 0 ends growth
successfully: the remaining generations are recorded as empty lists and no
drawing command is emitted by the loop. -/
theorem growGenerations_break (geo : Geo K) (creaturePanel : CreaturePanel K)
    (chromosomes : List Chromosome) (g : ℕ) (gs : List ℕ)
    (acc : List (List (PenPosition K))) (s : PenState K) (hg : g ≠ 0) :
    growGenerations geo creaturePanel chromosomes (g :: gs) [] acc s =
      (some (acc ++ List.replicate (gs.length + 1) []), s, []) := by
  rw [growGenerations]
  norm_num [hg]

/-- Stepping equation for the generation loop: a generation within budget
and nonempty, whose validation succeeds, hands the produced pending list and
its own list (appended to the table) to the next generation. -/
theorem growGenerations_step (geo : Geo K) (creaturePanel : CreaturePanel K)
    (chromosomes : List Chromosome) (g : ℕ) (gs : List ℕ)
    (pending nextPending : List (PenPosition K)) (acc : List (List (PenPosition K)))
    (s : PenState K)
    (h1 : ¬ pending.length > Creature.MAX_CHROMOSOME_SEGMENTS)
    (h2 : ¬ pending.length = 0)
    (hval : (validateSegments geo creaturePanel (chromAt chromosomes g)
      (if g < Genotype.CHROMOSOME_COUNT - 1 then some (chromAt chromosomes (g + 1)) else none)
      pending s).1 = some nextPending) :
    (growGenerations geo creaturePanel chromosomes (g :: gs) pending acc s).1 =
      (growGenerations geo creaturePanel chromosomes gs nextPending (acc ++ [pending])
        (validateSegments geo creaturePanel (chromAt chromosomes g)
          (if g < Genotype.CHROMOSOME_COUNT - 1 then some (chromAt chromosomes (g + 1)) else none)
          pending s).2.1).1 := by
  simp only [growGenerations, if_neg h1, if_neg h2]
  simp only [hval]

/-- A successful validation pass determines the result of `display`: it
returns `True` and draws exactly the validated table. -/
theorem display_of_grow (creature : Creature) (geo : Geo K)
    (creaturePanel : CreaturePanel K) (s : PenState K)
    (table : List (List (PenPosition K)))
    (h : (growGenerations geo creaturePanel creature.genotype.chromosomes
      (List.range Genotype.CHROMOSOME_COUNT)
      ((chromAt creature.genotype.chromosomes 0).childSegmentPositions geo
        creaturePanel.startingPenPosition s).1 []
      ((chromAt creature.genotype.chromosomes 0).childSegmentPositions geo
        creaturePanel.startingPenPosition s).2.1).1 = some table) :
    (creature.display geo creaturePanel s).1 = true ∧
    (creature.display geo creaturePanel s).2.1 = table := by
  simp only [Creature.display]
  split
  · next heq =>
      rw [h] at heq
      cases heq
  · next segs heq =>
      rw [h] at heq
      injection heq with heq
      rw [heq]
      exact ⟨rfl, rfl⟩


/-- C5: if generation 0 produces zero child positions, `display` returns
`False`.  If all generations before some later generation g validate
successfully (within budget, nonempty, all segments in bounds) and
generation g produces zero pending snapshots, `display` returns `True` with
only the earlier generations' segments in the drawing table: the three
conjuncts cover g = 1 (via a terminated generation-1 chromosome, the spec's
example), g = 2 and g = 3 (via the generation producing `some []`), with the
table listing generations 0..g-1 followed by empty lists. -/
theorem C5_empty_generations (creature : Creature) (geo : Geo K)
    (creaturePanel : CreaturePanel K) (s : PenState K) :
    (((chromAt creature.genotype.chromosomes 0).childSegmentPositions geo
        creaturePanel.startingPenPosition s).1 = [] →
      (creature.display geo creaturePanel s).1 = false) ∧
    (∀ children : List (PenPosition K),
      (chromAt creature.genotype.chromosomes 1).terminated = true →
      ((chromAt creature.genotype.chromosomes 0).childSegmentPositions geo
        creaturePanel.startingPenPosition s).1 ≠ [] →
      ((chromAt creature.genotype.chromosomes 0).childSegmentPositions geo
        creaturePanel.startingPenPosition s).1.length ≤ Creature.MAX_CHROMOSOME_SEGMENTS →
      (validateSegments geo creaturePanel (chromAt creature.genotype.chromosomes 0)
        (some (chromAt creature.genotype.chromosomes 1))
        ((chromAt creature.genotype.chromosomes 0).childSegmentPositions geo
          creaturePanel.startingPenPosition s).1
        ((chromAt creature.genotype.chromosomes 0).childSegmentPositions geo
          creaturePanel.startingPenPosition s).2.1).1 = some children →
      (creature.display geo creaturePanel s).1 = true ∧
      (creature.display geo creaturePanel s).2.1 =
        [((chromAt creature.genotype.chromosomes 0).childSegmentPositions geo
          creaturePanel.startingPenPosition s).1, [], [], []]) ∧
    (∀ gen1 : List (PenPosition K),
      ((chromAt creature.genotype.chromosomes 0).childSegmentPositions geo
        creaturePanel.startingPenPosition s).1 ≠ [] →
      ((chromAt creature.genotype.chromosomes 0).childSegmentPositions geo
        creaturePanel.startingPenPosition s).1.length ≤ Creature.MAX_CHROMOSOME_SEGMENTS →
      (validateSegments geo creaturePanel (chromAt creature.genotype.chromosomes 0)
        (some (chromAt creature.genotype.chromosomes 1))
        ((chromAt creature.genotype.chromosomes 0).childSegmentPositions geo
          creaturePanel.startingPenPosition s).1
        ((chromAt creature.genotype.chromosomes 0).childSegmentPositions geo
          creaturePanel.startingPenPosition s).2.1).1 = some gen1 →
      gen1 ≠ [] →
      gen1.length ≤ Creature.MAX_CHROMOSOME_SEGMENTS →
      (validateSegments geo creaturePanel (chromAt creature.genotype.chromosomes 1)
        (some (chromAt creature.genotype.chromosomes 2)) gen1
        (validateSegments geo creaturePanel (chromAt creature.genotype.chromosomes 0)
          (some (chromAt creature.genotype.chromosomes 1))
          ((chromAt creature.genotype.chromosomes 0).childSegmentPositions geo
            creaturePanel.startingPenPosition s).1
          ((chromAt creature.genotype.chromosomes 0).childSegmentPositions geo
            creaturePanel.startingPenPosition s).2.1).2.1).1 = some [] →
      (creature.display geo creaturePanel s).1 = true ∧
      (creature.display geo creaturePanel s).2.1 =
        [((chromAt creature.genotype.chromosomes 0).childSegmentPositions geo
          creaturePanel.startingPenPosition s).1, gen1, [], []]) ∧
    (∀ gen1 gen2 : List (PenPosition K),
      ((chromAt creature.genotype.chromosomes 0).childSegmentPositions geo
        creaturePanel.startingPenPosition s).1 ≠ [] →
      ((chromAt creature.genotype.chromosomes 0).childSegmentPositions geo
        creaturePanel.startingPenPosition s).1.length ≤ Creature.MAX_CHROMOSOME_SEGMENTS →
      (validateSegments geo creaturePanel (chromAt creature.genotype.chromosomes 0)
        (some (chromAt creature.genotype.chromosomes 1))
        ((chromAt creature.genotype.chromosomes 0).childSegmentPositions geo
          creaturePanel.startingPenPosition s).1
        ((chromAt creature.genotype.chromosomes 0).childSegmentPositions geo
          creaturePanel.startingPenPosition s).2.1).1 = some gen1 →
      gen1 ≠ [] →
      gen1.length ≤ Creature.MAX_CHROMOSOME_SEGMENTS →
      (validateSegments geo creaturePanel (chromAt creature.genotype.chromosomes 1)
        (some (chromAt creature.genotype.chromosomes 2)) gen1
        (validateSegments geo creaturePanel (chromAt creature.genotype.chromosomes 0)
          (some (chromAt creature.genotype.chromosomes 1))
          ((chromAt creature.genotype.chromosomes 0).childSegmentPositions geo
            creaturePanel.startingPenPosition s).1
          ((chromAt creature.genotype.chromosomes 0).childSegmentPositions geo
            creaturePanel.startingPenPosition s).2.1).2.1).1 = some gen2 →
      gen2 ≠ [] →
      gen2.length ≤ Creature.MAX_CHROMOSOME_SEGMENTS →
      (validateSegments geo creaturePanel (chromAt creature.genotype.chromosomes 2)
        (some (chromAt creature.genotype.chromosomes 3)) gen2
        (validateSegments geo creaturePanel (chromAt creature.genotype.chromosomes 1)
          (some (chromAt creature.genotype.chromosomes 2)) gen1
          (validateSegments geo creaturePanel (chromAt creature.genotype.chromosomes 0)
            (some (chromAt creature.genotype.chromosomes 1))
            ((chromAt creature.genotype.chromosomes 0).childSegmentPositions geo
              creaturePanel.startingPenPosition s).1
            ((chromAt creature.genotype.chromosomes 0).childSegmentPositions geo
              creaturePanel.startingPenPosition s).2.1).2.1).2.1).1 = some [] →
      (creature.display geo creaturePanel s).1 = true ∧
      (creature.display geo creaturePanel s).2.1 =
        [((chromAt creature.genotype.chromosomes 0).childSegmentPositions geo
          creaturePanel.startingPenPosition s).1, gen1, gen2, []]) := by
  have hif0 : (if (0:ℕ) < Genotype.CHROMOSOME_COUNT - 1 then
      some (chromAt creature.genotype.chromosomes (0 + 1)) else none) =
      some (chromAt creature.genotype.chromosomes 1) := rfl
  have hif1 : (if (1:ℕ) < Genotype.CHROMOSOME_COUNT - 1 then
      some (chromAt creature.genotype.chromosomes (1 + 1)) else none) =
      some (chromAt creature.genotype.chromosomes 2) := rfl
  have hif2 : (if (2:ℕ) < Genotype.CHROMOSOME_COUNT - 1 then
      some (chromAt creature.genotype.chromosomes (2 + 1)) else none) =
      some (chromAt creature.genotype.chromosomes 3) := rfl
  refine ⟨?_, ?_, ?_, ?_⟩
  · intro h
    simp only [Creature.display]
    split
    · rfl
    · next segs heq =>
        rw [show List.range Genotype.CHROMOSOME_COUNT = 0 :: [1, 2, 3] from rfl, h] at heq
        simp [growGenerations] at heq
  · intro children hterm hne hlen hval
    have hchildren : children = [] :=
      validateSegments_next_terminated geo creaturePanel _ _ hterm _ _ _ hval
    subst hchildren
    apply display_of_grow
    rw [show List.range Genotype.CHROMOSOME_COUNT = 0 :: [1, 2, 3] from rfl]
    rw [growGenerations_step geo creaturePanel _ 0 [1, 2, 3] _ [] [] _ (by omega)
      (fun h0 => hne (List.length_eq_zero.1 h0)) (by rw [hif0]; exact hval)]
    rw [growGenerations_break geo creaturePanel _ 1 [2, 3] _ _ (by norm_num)]
    simp [List.replicate]
  · intro gen1 hne0 hlen0 hval0 hne1 hlen1 hval1
    apply display_of_grow
    rw [show List.range Genotype.CHROMOSOME_COUNT = 0 :: [1, 2, 3] from rfl]
    rw [growGenerations_step geo creaturePanel _ 0 [1, 2, 3] _ gen1 [] _ (by omega)
      (fun h0 => hne0 (List.length_eq_zero.1 h0)) (by rw [hif0]; exact hval0)]
    rw [hif0]
    rw [growGenerations_step geo creaturePanel _ 1 [2, 3] gen1 [] _ _ (by omega)
      (fun h0 => hne1 (List.length_eq_zero.1 h0)) (by rw [hif1]; exact hval1)]
    rw [growGenerations_break geo creaturePanel _ 2 [3] _ _ (by norm_num)]
    simp [List.replicate]
  · intro gen1 gen2 hne0 hlen0 hval0 hne1 hlen1 hval1 hne2 hlen2 hval2
    apply display_of_grow
    rw [show List.range Genotype.CHROMOSOME_COUNT = 0 :: [1, 2, 3] from rfl]
    rw [growGenerations_step geo creaturePanel _ 0 [1, 2, 3] _ gen1 [] _ (by omega)
      (fun h0 => hne0 (List.length_eq_zero.1 h0)) (by rw [hif0]; exact hval0)]
    rw [hif0]
    rw [growGenerations_step geo creaturePanel _ 1 [2, 3] gen1 gen2 _ _ (by omega)
      (fun h0 => hne1 (List.length_eq_zero.1 h0)) (by rw [hif1]; exact hval1)]
    rw [hif1]
    rw [growGenerations_step geo creaturePanel _ 2 [3] gen2 [] _ _ (by omega)
      (fun h0 => hne2 (List.length_eq_zero.1 h0)) (by rw [hif2]; exact hval2)]
    rw [growGenerations_break geo creaturePanel _ 3 [] _ _ (by norm_num)]
    simp [List.replicate]

/-- A creature drawing one straight line segment of length 10 and
terminating at generation 1. -/
def creatureZ : Creature :=
  ⟨⟨[Chromosome.fromValue 0 0x10280, Chromosome.fromValue 1 0,
     Chromosome.fromValue 2 0, Chromosome.fromValue 3 0]⟩⟩

/-- A creature whose generation-0 chromosome is terminated. -/
def creatureT : Creature :=
  ⟨⟨[Chromosome.fromValue 0 0, Chromosome.fromValue 1 0,
     Chromosome.fromValue 2 0, Chromosome.fromValue 3 0]⟩⟩

/-- A panel too narrow for `creatureZ`'s 10-pixel segment. -/
def smallPanelZ : CreaturePanel ℤ := ⟨-100, -100, 5, 100, ⟨true, 0, 0, 90⟩⟩

/-- Witness for C1: the 10-pixel segment leaves the narrow panel, the
creature fails, and no drawing command was issued. -/
theorem C1_bounds_failure_draws_nothing_witness :
    (growGenerations geoX smallPanelZ creatureZ.genotype.chromosomes
        (List.range Genotype.CHROMOSOME_COUNT)
        ((chromAt creatureZ.genotype.chromosomes 0).childSegmentPositions geoX
          smallPanelZ.startingPenPosition penZ).1 []
        ((chromAt creatureZ.genotype.chromosomes 0).childSegmentPositions geoX
          smallPanelZ.startingPenPosition penZ).2.1).1 = none ∧
    (creatureZ.display geoX smallPanelZ penZ).1 = false ∧
    (creatureZ.display geoX smallPanelZ penZ).2.2.2 = [] :=
  ⟨by decide,
    (C1_bounds_failure_draws_nothing creatureZ geoX smallPanelZ penZ).1 (by decide),
    (C1_bounds_failure_draws_nothing creatureZ geoX smallPanelZ penZ).2
      ((C1_bounds_failure_draws_nothing creatureZ geoX smallPanelZ penZ).1 (by decide))⟩

/-- Witness for C4 at a successfully displayed creature. -/
theorem C4_resource_cutoff_witness :
    (creatureZ.display geoX panelZ penZ).1 = true ∧
    ∀ l ∈ (creatureZ.display geoX panelZ penZ).2.1,
      l.length ≤ Creature.MAX_CHROMOSOME_SEGMENTS :=
  ⟨by decide, C4_resource_cutoff creatureZ geoX panelZ penZ (by decide)⟩

/-- A creature running two straight generations and terminating at
generation 2. -/
def creature2Z : Creature :=
  ⟨⟨[Chromosome.fromValue 0 0x10280, Chromosome.fromValue 1 0x10280,
     Chromosome.fromValue 2 0, Chromosome.fromValue 3 0]⟩⟩

/-- A creature running three straight generations and terminating at
generation 3. -/
def creature3Z : Creature :=
  ⟨⟨[Chromosome.fromValue 0 0x10280, Chromosome.fromValue 1 0x10280,
     Chromosome.fromValue 2 0x10280, Chromosome.fromValue 3 0]⟩⟩

/-- Witness for C5: a creature terminated at generation 0 fails; creatures
with the empty generation at index 1, 2 and 3 succeed, drawing only the
generations before it. -/
theorem C5_empty_generations_witness :
    (((chromAt creatureT.genotype.chromosomes 0).childSegmentPositions geoX
        panelZ.startingPenPosition penZ).1 = [] ∧
      (creatureT.display geoX panelZ penZ).1 = false) ∧
    ((chromAt creatureZ.genotype.chromosomes 1).terminated = true ∧
      (creatureZ.display geoX panelZ penZ).1 = true ∧
      (creatureZ.display geoX panelZ penZ).2.1 =
        [((chromAt creatureZ.genotype.chromosomes 0).childSegmentPositions geoX
          panelZ.startingPenPosition penZ).1, [], [], []]) ∧
    ((creature2Z.display geoX panelZ penZ).1 = true ∧
      (creature2Z.display geoX panelZ penZ).2.1 =
        [((chromAt creature2Z.genotype.chromosomes 0).childSegmentPositions geoX
          panelZ.startingPenPosition penZ).1, [⟨true, 10, 0, 90⟩], [], []]) ∧
    ((creature3Z.display geoX panelZ penZ).1 = true ∧
      (creature3Z.display geoX panelZ penZ).2.1 =
        [((chromAt creature3Z.genotype.chromosomes 0).childSegmentPositions geoX
          panelZ.startingPenPosition penZ).1, [⟨true, 10, 0, 90⟩],
          [⟨true, 20, 0, 90⟩], []]) :=
  ⟨⟨by decide, (C5_empty_generations creatureT geoX panelZ penZ).1 (by decide)⟩,
    ⟨by decide,
      ((C5_empty_generations creatureZ geoX panelZ penZ).2.1 [] (by decide) (by decide)
        (by decide) (by decide)).1,
      ((C5_empty_generations creatureZ geoX panelZ penZ).2.1 [] (by decide) (by decide)
        (by decide) (by decide)).2⟩,
    ⟨((C5_empty_generations creature2Z geoX panelZ penZ).2.2.1 [⟨true, 10, 0, 90⟩]
        (by decide) (by decide) (by decide) (by decide) (by decide) (by decide)).1,
      ((C5_empty_generations creature2Z geoX panelZ penZ).2.2.1 [⟨true, 10, 0, 90⟩]
        (by decide) (by decide) (by decide) (by decide) (by decide) (by decide)).2⟩,
    ⟨((C5_empty_generations creature3Z geoX panelZ penZ).2.2.2 [⟨true, 10, 0, 90⟩]
        [⟨true, 20, 0, 90⟩] (by decide) (by decide) (by decide) (by decide) (by decide)
        (by decide) (by decide) (by decide) (by decide)).1,
      ((C5_empty_generations creature3Z geoX panelZ penZ).2.2.2 [⟨true, 10, 0, 90⟩]
        [⟨true, 20, 0, 90⟩] (by decide) (by decide) (by decide) (by decide) (by decide)
        (by decide) (by decide) (by decide) (by decide)).2⟩⟩

end Evolve
